import Mathlib

/-!
Shallow embedding of the wholecoiner swap execution orchestrator.

Sources embedded here:
- `src/lib/goalValidation.js` — goal status state machine and progress helpers.
- `src/app/api/invest/execute/route.js` (= `src/unnamed/part_003`) — the invest
  execute flow: submit and confirm a signed swap, stamp the SWAP transaction
  record, increment the goal ledger, auto-complete the goal.
- `src/unnamed/part_004` — the invest prepare flow (simulated onramp + quote).
- `src/unnamed/part_001` (admin internal transfer route) — the prepare/submit
  two-phase state machine with blockhash-expiry refresh.
- `src/unnamed/part_014` (SwapCard) — slippage options and the amount/base-unit
  conversions performed at the call sites.

Machine numbers from the JavaScript runtime are embedded as exact rationals
(`Rat`); identifiers from the database are embedded as `String`; fallible
steps return `Except` or are driven by explicit outcome parameters standing
for the network oracle.
-/

namespace Wholecoiner

/-- Goal status enum from the Prisma data model (`ACTIVE`, `PAUSED`, `COMPLETED`). -/
inductive GoalStatus
  | ACTIVE
  | PAUSED
  | COMPLETED
deriving DecidableEq, Repr

/-- Result of `validateStatusTransition`: the source either returns normally or
throws `GoalErrors.INVALID_STATUS_TRANSITION(currentStatus, newStatus)`. -/
inductive TransitionResult
  | ok
  | invalidTransition (current next : GoalStatus)
deriving DecidableEq, Repr

/-- Allowed user-driven transitions, from `validateStatusTransition` in
`src/lib/goalValidation.js` (`ACTIVE -> [PAUSED]`, `PAUSED -> [ACTIVE]`,
`COMPLETED -> []`). -/
def validTransitions : GoalStatus → List GoalStatus
  | GoalStatus.ACTIVE => [GoalStatus.PAUSED]
  | GoalStatus.PAUSED => [GoalStatus.ACTIVE]
  | GoalStatus.COMPLETED => []

/-- Embedding of `validateStatusTransition` from `src/lib/goalValidation.js`:
a request for `COMPLETED` is rejected up front, otherwise the transition must
be listed in `validTransitions`. -/
def validateStatusTransition (currentStatus newStatus : GoalStatus) : TransitionResult :=
  if newStatus = GoalStatus.COMPLETED then
    TransitionResult.invalidTransition currentStatus newStatus
  else if (validTransitions currentStatus).contains newStatus then
    TransitionResult.ok
  else
    TransitionResult.invalidTransition currentStatus newStatus

/-- Embedding of `shouldAutoComplete` from `src/lib/goalValidation.js`. -/
def shouldAutoComplete (investedAmount targetAmount : ℚ) : Bool :=
  targetAmount ≤ investedAmount

/-- Declared decimal precision per supported asset symbol; the values 9 (SOL),
6 (USDC) and 8 (BTC, the cbBTC mint) appear in the source comments of
`src/unnamed/part_001` lines 102-112. Unknown symbols fall back to 9, matching
the `decimals || 9` defaults in `src/unnamed/part_014`. -/
def tokenDecimals : String → ℕ
  | "SOL" => 9
  | "USDC" => 6
  | "BTC" => 8
  | _ => 9

/-- The exact-arithmetic idealization of the amount-to-base-units conversion
at the call sites `Math.floor(amount * Math.pow(10, decimals))`
(`src/unnamed/part_001` line 120, `src/unnamed/part_014` lines 207-209).
The source computes the product in IEEE-754 binary64, which can land strictly
below the exact product; that rounding is modelled relationally by
`RoundsToF64` below and is what separates the runtime from this
idealization. -/
def toSmallestUnits (amount : ℚ) (decimals : ℕ) : ℤ :=
  ⌊amount * (10 : ℚ) ^ decimals⌋

/-- Modelled from the IEEE-754 binary64 semantics of the source runtime: `v`
is the round-to-nearest double value of the real `q` in the binade whose unit
in the last place is `ulp` — a multiple of `ulp` with a 53-bit significand
lying strictly within half an ulp of `q` (the strict bound means no tie
arises at the inputs used here, so `v` is uniquely determined among
representable values). -/
def RoundsToF64 (q v ulp : ℚ) : Prop :=
  (∃ m : ℤ, |m| < 2 ^ 53 ∧ v = m * ulp) ∧ |q - v| < ulp / 2

/-- The binary64 value of the JavaScript literal 0.29. -/
def jsDouble029 : ℚ := 5224175567749775 / 2 ^ 54

/-- The binary64 product of `jsDouble029` with 1e8 — the value the JavaScript
runtime prints as 28999999.999999996. -/
def jsDouble029e8 : ℚ := 7784628223999999 / 2 ^ 28

/-- Embedding of the base-units-to-amount conversion performed at the call
sites in source: `outAmount / Math.pow(10, decimals)` (`src/unnamed/part_014`
line 239 and the `fromSmallestUnits` call sites), over exact rationals. -/
def fromSmallestUnits (baseUnits : ℤ) (decimals : ℕ) : ℚ :=
  (baseUnits : ℚ) / (10 : ℚ) ^ decimals

/-- The slippage ladder from `SLIPPAGE_OPTIONS` in `src/unnamed/part_014`
lines 15-20: identifiers, display values, and basis points. -/
def SLIPPAGE_OPTIONS : List (String × String × ℕ) :=
  [("slip1", "0.5%", 50), ("slip2", "1%", 100), ("slip3", "1.5%", 150), ("slip4", "2%", 200)]

/-- The ascending ladder of slippage tolerances in basis points. -/
def slippageLadder : List ℕ := SLIPPAGE_OPTIONS.map (fun o => o.2.2)

/-- Modelled from the spec: the backend escalation step of the Slippage
Escalation Policy (spec 4.5); the backend route `app/api/swap/execute/route.js`
is not under `src/`. On a slippage rejection the next tolerance on the fixed
ascending ladder is used; above the 200 bps ceiling there is no next step. -/
def nextSlippageBps (bps : ℕ) : Option ℕ :=
  (slippageLadder.filter (fun b => bps < b)).head?

/-- Modelled from the spec: one slippage-triggered retry either re-quotes at
the next ladder step or fails terminally with the non-retryable
`SLIPPAGE_EXCEEDED` error (spec 4.5 and 6). -/
def escalateSlippage (bps : ℕ) : Except String ℕ :=
  match nextSlippageBps bps with
  | some b => Except.ok b
  | none => Except.error "SLIPPAGE_EXCEEDED"

/-- A user row, reduced to the fields the embedded flows read. -/
structure User where
  id : String
  walletAddress : Option String
deriving DecidableEq, Repr

/-- A goal row from the Prisma data model, reduced to the fields the embedded
flows read. -/
structure Goal where
  id : String
  userId : String
  coin : String
  targetAmount : ℚ
  investedAmount : ℚ
  status : GoalStatus
deriving DecidableEq, Repr

/-- Transaction kinds used by the invest flow (`type` column). -/
inductive TxnType
  | ONRAMP
  | SWAP
deriving DecidableEq, Repr

/-- A transaction record row. The free-form `meta` JSON is flattened to the
fields the source reads and writes (`state`, `quoteId`). -/
structure TxnRecord where
  id : ℕ
  goalId : String
  batchId : String
  type : TxnType
  provider : String
  network : String
  txnHash : Option String
  amountUsd : Option ℚ
  amountCrypto : ℚ
  tokenMint : String
  metaState : String
  metaQuoteId : Option String
deriving DecidableEq, Repr

/-- The persistent store seen by the invest routes. `nextTxnId` supplies fresh
row ids for created records. -/
structure DB where
  users : List User
  goals : List Goal
  transactions : List TxnRecord
  nextTxnId : ℕ
deriving DecidableEq, Repr

/-- `prisma.goal.findFirst({ where: { id: goalId, userId: user.id } })`. -/
def findGoal (db : DB) (goalId userId : String) : Option Goal :=
  db.goals.find? (fun g => decide (g.id = goalId ∧ g.userId = userId))

/-- `prisma.user.findUnique({ where: { id } })`, used through the `include`
on the goal query. -/
def findUser (db : DB) (userId : String) : Option User :=
  db.users.find? (fun u => decide (u.id = userId))

/-- Lookup of a transaction record by (batchId, kind) in a raw table. -/
def findTxnIn (table : List TxnRecord) (batchId : String) (kind : TxnType) : Option TxnRecord :=
  table.find? (fun t => decide (t.batchId = batchId ∧ t.type = kind))

/-- `prisma.transaction.findFirst({ where: { batchId, type } })`. -/
def findTxn (db : DB) (batchId : String) (kind : TxnType) : Option TxnRecord :=
  findTxnIn db.transactions batchId kind

/-- `prisma.goal.update({ where: { id } })`: apply `f` to the goal with the
given id, leaving everything else in place. -/
def mapGoal (db : DB) (goalId : String) (f : Goal → Goal) : DB :=
  { db with goals := db.goals.map (fun g => if g.id = goalId then f g else g) }

/-- Modelled from the spec: the error taxonomy of `@/lib/errors` (not under
src/), spec 6 and 7: validation 400, auth 401, unclassified internal 500.
`invalidWallet` and `networkError` stand for the `SwapErrors` factories the
routes throw; their exact numeric codes are not visible under src/. -/
inductive AppError
  | validation (message : String)
  | authError (message : String)
  | invalidWallet
  | networkError
  | internal (message : String)
deriving DecidableEq, Repr

/-- Error code string surfaced in the JSON error envelope. -/
def errorCode : AppError → String
  | AppError.validation _ => "VALIDATION_ERROR"
  | AppError.authError _ => "AUTH_ERROR"
  | AppError.invalidWallet => "INVALID_WALLET"
  | AppError.networkError => "NETWORK_ERROR"
  | AppError.internal _ => "INTERNAL_ERROR"

/-- HTTP status attached to each error kind by the catch blocks. -/
def errorStatus : AppError → ℕ
  | AppError.validation _ => 400
  | AppError.authError _ => 401
  | AppError.invalidWallet => 400
  | AppError.networkError => 503
  | AppError.internal _ => 500

/-- Response shape of POST `/api/invest/execute`. -/
structure ExecResp where
  status : ℕ
  success : Bool
  errCode : Option String
  btcAmount : Option ℚ
  transactionHash : Option String
deriving DecidableEq, Repr

/-- The error envelope returned by the catch block of the execute route. -/
def execFailure (e : AppError) : ExecResp :=
  { status := errorStatus e, success := false, errCode := some (errorCode e),
    btcAmount := none, transactionHash := none }

/-- The success envelope of the execute route (part_003 lines 310-315). -/
def execSuccess (amount : ℚ) (signature : String) : ExecResp :=
  { status := 200, success := true, errCode := none,
    btcAmount := some amount, transactionHash := some signature }

/-- Outcomes of the blocking network calls made by `submitAndConfirm`,
supplied as an explicit oracle: the observed slot, whether the signed payload
deserializes, and the results of `sendRawTransaction` / `confirmTransaction`. -/
structure NetOutcome where
  currentBlockHeight : Option ℕ
  deserializeOk : Bool
  sendResult : Except String String
  confirmResult : Except String Unit
deriving Repr

/-- Character class of the validation regex in part_003 line 36. -/
def isBase64Char (c : Char) : Bool :=
  c.isAlphanum || c = '+' || c = '/' || c = '='

/-- The base64 shape check of part_003 lines 32-43: a nonempty string of
base64 characters (an empty string is also rejected by the falsiness check). -/
def isValidBase64 (s : String) : Bool :=
  decide (0 < s.length) && s.data.all isBase64Char

/-- Embedding of `submitAndConfirm` (part_003 lines 20-176): validate the
signed payload, reject when the anchor height is already exceeded, then send
and confirm through the network oracle. Errors thrown by the network carry no
`statusCode` and surface as unclassified internal errors in the catch block. -/
def submitAndConfirm (signedTransaction : String) (lastValidBlockHeight : Option ℕ)
    (net : NetOutcome) : Except AppError String :=
  if isValidBase64 signedTransaction = false then
    Except.error (AppError.validation "swapTransaction is not valid base64")
  else if net.deserializeOk = false then
    Except.error (AppError.validation "Transaction deserialization failed")
  else
    let heightExpired : Bool :=
      match lastValidBlockHeight, net.currentBlockHeight with
      | some lvh, some cur => decide (lvh ≠ 0 ∧ lvh ≤ cur)
      | _, _ => false
    if heightExpired then
      Except.error (AppError.validation "Transaction block height expired")
    else
      match net.sendResult with
      | Except.error msg => Except.error (AppError.internal msg)
      | Except.ok signature =>
        match net.confirmResult with
        | Except.error msg => Except.error (AppError.internal msg)
        | Except.ok _ => Except.ok signature

/-- The `quoteResponse` fields the execute route reads from the request body.
Note that the whole object is client-supplied. -/
structure QuoteResponse where
  quoteId : String
  outAmount : ℤ
deriving DecidableEq, Repr

/-- Request body of POST `/api/invest/execute`, with the authenticated user id
attached by `requireAuth`. -/
structure ExecReq where
  userId : String
  goalId : Option String
  batchId : Option String
  signedTransaction : Option String
  quoteResponse : Option QuoteResponse
  lastValidBlockHeight : Option ℕ
deriving Repr

/-- The falsiness check of part_003 line 205 on the required body fields. -/
def execMissingFields (req : ExecReq) : Bool :=
  req.goalId.getD "" == "" || req.batchId.getD "" == "" ||
    req.signedTransaction.getD "" == "" || req.quoteResponse.isNone

/-- Modelled from the spec: `getTokenMint(coin).mint`; the tokens library is
not under src/, so the mint address is an opaque string derived from the coin
symbol (no claim inspects its value). -/
def tokenMint (coin : String) : String := "mint:" ++ coin

/-- First persisted write of the confirm section of the execute route
(part_003 lines 242-273): stamp the existing SWAP record with the signature,
received amount and `SWAP_CONFIRMED` state, or create it when absent.
`found` is the `findFirst` result read before submission. -/
def stampSwapRecord (db : DB) (goalId batchId : String) (found : Option TxnRecord)
    (signature : String) (outputAmount : ℚ) (mint quoteId network : String) : DB :=
  match found with
  | some t =>
    { db with transactions := db.transactions.map (fun r =>
        if r.id = t.id then
          { r with txnHash := some signature, amountCrypto := outputAmount,
                   tokenMint := mint, metaState := "SWAP_CONFIRMED",
                   metaQuoteId := some quoteId }
        else r) }
  | none =>
    { db with
        transactions := db.transactions ++
          [{ id := db.nextTxnId, goalId := goalId, batchId := batchId,
             type := TxnType.SWAP, provider := "JUPITER", network := network,
             txnHash := some signature, amountUsd := none,
             amountCrypto := outputAmount, tokenMint := mint,
             metaState := "SWAP_CONFIRMED", metaQuoteId := some quoteId }],
        nextTxnId := db.nextTxnId + 1 }

/-- The per-row update of the ledger increment: the goal with `amount` added
to its invested amount. -/
def incGoal (g : Goal) (amount : ℚ) : Goal :=
  { g with investedAmount := g.investedAmount + amount }

/-- The per-row update of the auto-completion check (part_003 lines 285-292):
COMPLETED exactly when the freshly read invested amount has reached the
target, otherwise unchanged. -/
def completeIfReached (g : Goal) : Goal :=
  if g.targetAmount ≤ g.investedAmount then { g with status := GoalStatus.COMPLETED } else g

/-- Second persisted write of the confirm section (part_003 lines 275-283):
`investedAmount: { increment: outputAmount }`. -/
def incrementInvestedAmount (db : DB) (goalId : String) (amount : ℚ) : DB :=
  mapGoal db goalId (fun g => incGoal g amount)

/-- Third persisted write of the confirm section (part_003 lines 285-292). -/
def autoCompleteGoal (db : DB) (goalId : String) : DB :=
  mapGoal db goalId completeIfReached

/-- Embedding of `POST /api/invest/execute` (part_003 lines 178-353) as a
function of the store, the request and the network oracle. The three confirm
writes are the separate sequential awaits of the source: `stampSwapRecord`,
then `incrementInvestedAmount`, then `autoCompleteGoal` (no surrounding
database transaction). The writes and the notification await are infallible
in this function; the partial states a failing later await leaves behind are
enumerated separately by `confirmPrefixes`. -/
def executePOST (db : DB) (req : ExecReq) (net : NetOutcome) (network : String) :
    ExecResp × DB :=
  if execMissingFields req then
    (execFailure (AppError.validation "Missing required fields"), db)
  else
    match req.goalId, req.batchId, req.signedTransaction, req.quoteResponse with
    | some goalId, some batchId, some signedTransaction, some quoteResponse =>
      match findGoal db goalId req.userId with
      | none => (execFailure AppError.invalidWallet, db)
      | some goal =>
        if goal.status ≠ GoalStatus.ACTIVE then
          (execFailure (AppError.validation "Goal must be ACTIVE to execute investment"), db)
        else
          let decimals := tokenDecimals goal.coin
          let outputAmount := fromSmallestUnits quoteResponse.outAmount decimals
          let swapTransaction := findTxn db batchId TxnType.SWAP
          match submitAndConfirm signedTransaction req.lastValidBlockHeight net with
          | Except.error e => (execFailure e, db)
          | Except.ok signature =>
            let db1 := stampSwapRecord db goal.id batchId swapTransaction signature
              outputAmount (tokenMint goal.coin) quoteResponse.quoteId network
            let db2 := incrementInvestedAmount db1 goal.id outputAmount
            let db3 := autoCompleteGoal db2 goal.id
            (execSuccess outputAmount signature, db3)
    | _, _, _, _ => (execFailure (AppError.validation "Missing required fields"), db)

/-- Minimum amount constant of the prepare route (part_004 line 19). -/
def MIN_AMOUNT_SOL : ℚ := 1 / 100

/-- Fee buffer constant of the prepare route (part_004 line 21). -/
def SOL_FEE_BUFFER : ℚ := 1 / 100

/-- Request body of POST `/api/invest/prepare`, with the authenticated user id
attached by `requireAuth`. -/
structure PrepReq where
  userId : String
  goalId : Option String
  amountUsd : Option ℚ
deriving Repr

/-- Environment oracle of the prepare route: rate limiter verdict, observed
SOL balance, the generated batch id and simulated signature, and the outcomes
of the ATA, quote and swap-transaction network calls. -/
structure PrepEnv where
  rateLimitOk : Bool
  solBalanceLamports : ℕ
  freshBatchId : String
  simulatedSignature : String
  ataOk : Bool
  quoteOk : Except String Unit
  swapOk : Except String Unit
  network : String
deriving Repr

/-- Response shape of POST `/api/invest/prepare`. -/
structure PrepResp where
  status : ℕ
  success : Bool
  errCode : Option String
  batchId : Option String
deriving DecidableEq, Repr

/-- The error envelope returned by the catch block of the prepare route. -/
def prepFailure (e : AppError) : PrepResp :=
  { status := errorStatus e, success := false, errCode := some (errorCode e), batchId := none }

/-- The success envelope of the prepare route (part_004 lines 244-254). -/
def prepSuccess (batchId : String) : PrepResp :=
  { status := 200, success := true, errCode := none, batchId := some batchId }

/-- Modelled from the spec: `ensureOnce(batchId, kind, operation)` of the
Idempotency Guard (spec 4.1); `@/lib/idempotency` is not under src/. If a
record for the key already exists it is returned without re-running the
operation; otherwise the freshly built record is persisted. -/
def ensureIdempotency (db : DB) (batchId : String) (kind : TxnType) (record : TxnRecord) :
    TxnRecord × DB :=
  match findTxn db batchId kind with
  | some t => (t, db)
  | none =>
    (record, { db with transactions := db.transactions ++ [record], nextTxnId := db.nextTxnId + 1 })

/-- The simulated-onramp record created by the prepare route (part_004
lines 96-119). -/
def onrampRecord (db : DB) (goal : Goal) (batchId signature : String) (amountUsd : ℚ)
    (network : String) : TxnRecord :=
  { id := db.nextTxnId, goalId := goal.id, batchId := batchId, type := TxnType.ONRAMP,
    provider := "FAUCET", network := network, txnHash := some signature,
    amountUsd := some (amountUsd * 100), amountCrypto := amountUsd,
    tokenMint := tokenMint "SOL", metaState := "ONRAMP_CONFIRMED", metaQuoteId := none }

/-- Embedding of `POST /api/invest/prepare` (part_004 lines 23-292, the
current SOL-denominated variant): rate limit, field validation, goal and
wallet checks, SOL balance check, idempotent onramp-record creation, then the
ATA / quote / swap-transaction network phase. Only the onramp creation writes
to the store. -/
def preparePOST (db : DB) (req : PrepReq) (env : PrepEnv) : PrepResp × DB :=
  if env.rateLimitOk = false then
    (prepFailure AppError.networkError, db)
  else
    match req.goalId with
    | none => (prepFailure (AppError.validation "goalId is required"), db)
    | some goalId =>
      if goalId = "" then
        (prepFailure (AppError.validation "goalId is required"), db)
      else
        match req.amountUsd with
        | none => (prepFailure (AppError.validation "Amount must be at least 0.01 SOL"), db)
        | some amountUsd =>
          if amountUsd < MIN_AMOUNT_SOL then
            (prepFailure (AppError.validation "Amount must be at least 0.01 SOL"), db)
          else
            match findGoal db goalId req.userId with
            | none => (prepFailure AppError.invalidWallet, db)
            | some goal =>
              if goal.status ≠ GoalStatus.ACTIVE then
                (prepFailure (AppError.validation "Goal must be ACTIVE to invest"), db)
              else
                match (findUser db goal.userId).bind User.walletAddress with
                | none => (prepFailure AppError.invalidWallet, db)
                | some _wallet =>
                  let solBalanceInSol : ℚ := (env.solBalanceLamports : ℚ) / 1000000000
                  let estimatedSolNeeded := amountUsd + SOL_FEE_BUFFER
                  if solBalanceInSol < estimatedSolNeeded then
                    (prepFailure (AppError.validation "Insufficient SOL balance"), db)
                  else
                    let batchId := env.freshBatchId
                    let record := onrampRecord db goal batchId env.simulatedSignature amountUsd env.network
                    let db1 := (ensureIdempotency db batchId TxnType.ONRAMP record).2
                    if env.ataOk = false then
                      (prepFailure (AppError.internal "ATA creation failed"), db1)
                    else
                      match env.quoteOk with
                      | Except.error msg => (prepFailure (AppError.internal msg), db1)
                      | Except.ok _ =>
                        match env.swapOk with
                        | Except.error msg => (prepFailure (AppError.internal msg), db1)
                        | Except.ok _ => (prepSuccess batchId, db1)

/-- Modelled from the spec: insertion against the storage uniqueness
constraint on (batchId, kind) (spec 3 and 5); the Prisma schema is not under
src/. The insert is rejected exactly when a record with the same key already
exists, which is how the store breaks the race between concurrent writers. -/
def insertUnique (table : List TxnRecord) (r : TxnRecord) : Except String (List TxnRecord) :=
  match findTxnIn table r.batchId r.type with
  | some _ => Except.error "unique constraint violation"
  | none => Except.ok (table ++ [r])

deriving instance DecidableEq for Except

/-- Program counter of one request in the two-request concurrency model: the
request has not read yet, has read `found`, or has finished with a result. -/
inductive ProcPhase
  | start
  | readDone (found : Option TxnRecord)
  | finished (result : Except String TxnRecord)
deriving DecidableEq, Repr

/-- One scheduler step of a request running through the Idempotency Guard
(spec 4.1, modelled because `@/lib/idempotency` is not under src/): read the
key, then insert; a unique-violation on insert is caught and the winner read
back. -/
def stepGuard (table : List TxnRecord) (my : TxnRecord) :
    ProcPhase → ProcPhase × List TxnRecord
  | ProcPhase.start => (ProcPhase.readDone (findTxnIn table my.batchId my.type), table)
  | ProcPhase.readDone (some t) => (ProcPhase.finished (Except.ok t), table)
  | ProcPhase.readDone none =>
    match insertUnique table my with
    | Except.ok table2 => (ProcPhase.finished (Except.ok my), table2)
    | Except.error _ =>
      match findTxnIn table my.batchId my.type with
      | some winner => (ProcPhase.finished (Except.ok winner), table)
      | none => (ProcPhase.finished (Except.error "unreachable"), table)
  | ProcPhase.finished r => (ProcPhase.finished r, table)

/-- The in-place stamp applied by the execute route when its `findFirst`
found an existing SWAP record (part_003 lines 243-255). -/
def stampLike (t my : TxnRecord) : TxnRecord :=
  { t with txnHash := my.txnHash, amountCrypto := my.amountCrypto,
           tokenMint := my.tokenMint, metaState := my.metaState,
           metaQuoteId := my.metaQuoteId }

/-- One scheduler step of a request running the unguarded find-then-write of
the execute route (part_003 lines 229-273): `findFirst`, then either update in
place (the stamp data is applied to whatever row currently holds the id) or
`create` with no unique-violation handling, so a rejected insert bubbles to
the generic catch block as an internal error. -/
def stepExecuteCreate (table : List TxnRecord) (my : TxnRecord) :
    ProcPhase → ProcPhase × List TxnRecord
  | ProcPhase.start => (ProcPhase.readDone (findTxnIn table my.batchId my.type), table)
  | ProcPhase.readDone (some t) =>
    (ProcPhase.finished (Except.ok (stampLike t my)),
      table.map (fun r => if r.id = t.id then stampLike r my else r))
  | ProcPhase.readDone none =>
    match insertUnique table my with
    | Except.ok table2 => (ProcPhase.finished (Except.ok my), table2)
    | Except.error _ => (ProcPhase.finished (Except.error "INTERNAL_ERROR"), table)
  | ProcPhase.finished r => (ProcPhase.finished r, table)

/-- Joint state of two concurrent requests A and B over the shared table. -/
structure RaceState where
  table : List TxnRecord
  procA : ProcPhase
  procB : ProcPhase
deriving DecidableEq, Repr

/-- Run one scheduler step of request A (`who = true`) or B (`who = false`). -/
def raceStep (step : List TxnRecord → TxnRecord → ProcPhase → ProcPhase × List TxnRecord)
    (recA recB : TxnRecord) (who : Bool) (s : RaceState) : RaceState :=
  if who then
    { s with procA := (step s.table recA s.procA).1, table := (step s.table recA s.procA).2 }
  else
    { s with procB := (step s.table recB s.procB).1, table := (step s.table recB s.procB).2 }

/-- Run a whole schedule, one step per list entry. -/
def raceRun (step : List TxnRecord → TxnRecord → ProcPhase → ProcPhase × List TxnRecord)
    (recA recB : TxnRecord) : List Bool → RaceState → RaceState
  | [], s => s
  | w :: ws, s => raceRun step recA recB ws (raceStep step recA recB w s)

/-- Initial state of the race: empty table, both requests about to read. -/
def raceInit : RaceState :=
  { table := [], procA := ProcPhase.start, procB := ProcPhase.start }

/-- All persisted records for a (batchId, kind) key. -/
def keyRecords (table : List TxnRecord) (batchId : String) (kind : TxnType) : List TxnRecord :=
  table.filter (fun t => decide (t.batchId = batchId ∧ t.type = kind))

/-- A record carries the (batchId, kind) key. -/
def KeyOf (batchId : String) (kind : TxnType) (t : TxnRecord) : Prop :=
  t.batchId = batchId ∧ t.type = kind

/-- Internal transfer states from the Prisma enum of the admin transfer
migration (`PREPARED`, `SUBMITTED`, `CONFIRMED`, `FAILED`). -/
inductive TransferState
  | PREPARED
  | SUBMITTED
  | CONFIRMED
  | FAILED
deriving DecidableEq, Repr

/-- An `internal_transfers` row; the free-form metadata JSON is flattened to
the fields the route reads and writes. A metadata blob with no `refreshCount`
reads as 0 through the `|| 0` default, so the field is a plain natural. -/
structure Transfer where
  batchId : String
  sourceAddress : String
  destinationAddress : String
  lamports : ℤ
  memo : Option String
  state : TransferState
  signature : Option String
  refreshCount : ℕ
  lastRefreshReason : Option String
  failureReason : Option String
  lastValidBlockHeight : ℕ
  recentBlockhash : String
deriving DecidableEq, Repr

/-- The admin transfer table (`batchId` is unique). -/
abbrev TransferDB := List Transfer

/-- `prisma.internalTransfer.findUnique({ where: { batchId } })`. -/
def findTransfer (db : TransferDB) (batchId : String) : Option Transfer :=
  db.find? (fun t => decide (t.batchId = batchId))

/-- `prisma.internalTransfer.update({ where: { batchId } })`. -/
def mapTransfer (db : TransferDB) (batchId : String) (f : Transfer → Transfer) : TransferDB :=
  db.map (fun t => if t.batchId = batchId then f t else t)

/-- Result of `buildUnsignedTransfer` (part_001 lines 964-996), supplied by
the network oracle: the unsigned payload together with its fresh anchor. -/
structure Unsigned where
  unsignedTransaction : String
  recentBlockhash : String
  lastValidBlockHeight : ℕ
  feeEstimateLamports : Option ℤ
deriving DecidableEq, Repr

/-- The transfer payload assembled by `formatTransferResponse` (part_001
lines 998-1022). -/
structure TransferPayload where
  fromAddress : String
  toAddress : String
  lamports : ℤ
  amountSol : ℚ
  memo : Option String
  unsignedTransaction : String
  feeEstimateLamports : Option ℤ
  lastValidBlockHeight : ℕ
  recentBlockhash : String
deriving DecidableEq, Repr

/-- Embedding of `formatTransferResponse`. -/
def formatTransferResponse (sourceAddress destinationAddress : String) (lamports : ℤ)
    (memo : Option String) (u : Unsigned) : TransferPayload :=
  { fromAddress := sourceAddress, toAddress := destinationAddress, lamports := lamports,
    amountSol := (lamports : ℚ) / 1000000000, memo := memo,
    unsignedTransaction := u.unsignedTransaction,
    feeEstimateLamports := u.feeEstimateLamports,
    lastValidBlockHeight := u.lastValidBlockHeight,
    recentBlockhash := u.recentBlockhash }

/-- Outcome of `submitTransaction` in the admin route, supplied as an oracle:
either a signature, a failure classified by `isBlockhashExpiredError`, or any
other failure. -/
inductive SubmitOutcome
  | success (signature : String)
  | blockhashExpired (message : String)
  | failure (message : String)
deriving DecidableEq, Repr

/-- Response shape of the submit mode of the admin transfer route. -/
structure SubmitResp where
  status : ℕ
  success : Bool
  retryable : Bool
  errCode : Option String
  batchId : Option String
  signature : Option String
  transfer : Option TransferPayload
deriving DecidableEq, Repr

/-- Embedding of `refreshExpiredTransfer` (part_001 lines 1331-1398): look the
transfer up, validate the stored amount, rebuild an unsigned payload against a
fresh anchor, bump `refreshCount` by one, reset the state to PREPARED and
clear the stored signature. -/
def refreshExpiredTransfer (db : TransferDB) (batchId : String) (fresh : Unsigned) :
    Except AppError (TransferPayload × TransferDB) :=
  match findTransfer db batchId with
  | none => Except.error (AppError.validation "Internal transfer not found for refresh")
  | some existing =>
    if existing.lamports ≤ 0 then
      Except.error (AppError.validation "Stored transfer amount is invalid for refresh")
    else
      let db2 := mapTransfer db batchId (fun t =>
        { t with state := TransferState.PREPARED, signature := none,
                 refreshCount := t.refreshCount + 1,
                 lastRefreshReason := some "BLOCKHASH_EXPIRED",
                 lastValidBlockHeight := fresh.lastValidBlockHeight,
                 recentBlockhash := fresh.recentBlockhash })
      Except.ok
        (formatTransferResponse existing.sourceAddress existing.destinationAddress
          existing.lamports existing.memo fresh, db2)

/-- Embedding of `markTransferSubmitted` (part_001 lines 1400-1426): set the
state to SUBMITTED and store the signature; when the row is missing the
failure is swallowed with only a log line, leaving the table unchanged. -/
def markTransferSubmitted (db : TransferDB) (batchId signature : String) : TransferDB :=
  match findTransfer db batchId with
  | none => db
  | some _ =>
    mapTransfer db batchId (fun t =>
      { t with state := TransferState.SUBMITTED, signature := some signature })

/-- Embedding of `markTransferFailed` (part_001 lines 1428-1452): set the
state to FAILED and store the raw failure reason; a missing row is again
swallowed. -/
def markTransferFailed (db : TransferDB) (batchId message : String) : TransferDB :=
  match findTransfer db batchId with
  | none => db
  | some _ =>
    mapTransfer db batchId (fun t =>
      { t with state := TransferState.FAILED, failureReason := some message })

/-- Embedding of `handleSubmitMode` (part_001 lines 1147-1243) after payload
validation, as a function of the submit outcome: success marks the transfer
SUBMITTED and returns 201; a blockhash-expiry failure refreshes the transfer
and returns the retryable 409 `BLOCKHASH_EXPIRED` envelope with the refreshed
payload; any other failure marks the transfer FAILED and rethrows into the
catch block as a 500. -/
def handleSubmitMode (db : TransferDB) (batchId : String) (outcome : SubmitOutcome)
    (fresh : Unsigned) : SubmitResp × TransferDB :=
  match outcome with
  | SubmitOutcome.success signature =>
    ({ status := 201, success := true, retryable := false, errCode := none,
       batchId := some batchId, signature := some signature, transfer := none },
      markTransferSubmitted db batchId signature)
  | SubmitOutcome.blockhashExpired _ =>
    match refreshExpiredTransfer db batchId fresh with
    | Except.ok (payload, db2) =>
      ({ status := 409, success := false, retryable := true,
         errCode := some "BLOCKHASH_EXPIRED", batchId := some batchId,
         signature := none, transfer := some payload }, db2)
    | Except.error e =>
      ({ status := errorStatus e, success := false, retryable := false,
         errCode := some (errorCode e), batchId := none, signature := none,
         transfer := none }, db)
  | SubmitOutcome.failure message =>
    ({ status := 500, success := false, retryable := false,
       errCode := some "INTERNAL_ERROR", batchId := none, signature := none,
       transfer := none },
      markTransferFailed db batchId message)

/-- A confirmed SWAP record for the batch is persisted: the record exists with
`SWAP_CONFIRMED` state and a stored network reference. -/
def confirmedSwapExists (db : DB) (batchId : String) : Bool :=
  match findTxn db batchId TxnType.SWAP with
  | some t => t.metaState == "SWAP_CONFIRMED" && t.txnHash.isSome
  | none => false

/-- The invested amount of the goal with the given id, when it exists. -/
def goalInvestedAmount (db : DB) (goalId : String) : Option ℚ :=
  (db.goals.find? (fun g => decide (g.id = goalId))).map Goal.investedAmount

/-- The pairing required by spec 4.6 between a base state `db0` and a later
state `db`: the confirmed SWAP record for the batch exists exactly when the
ledger increment of `amount` has been applied to the goal. -/
def LedgerPaired (db0 db : DB) (batchId goalId : String) (amount : ℚ) : Prop :=
  confirmedSwapExists db batchId = true ↔
    goalInvestedAmount db goalId = (goalInvestedAmount db0 goalId).map (fun a => a + amount)

/-- Concrete nearly-complete ACTIVE goal used by the C3 witness (spec
scenario: target 1.0, invested 0.999999, confirmed swap of 0.000002). -/
def c3Goal : Goal :=
  { id := "g3", userId := "u1", coin := "BTC", targetAmount := 1,
    investedAmount := 999999 / 1000000, status := GoalStatus.ACTIVE }

/-- Concrete store holding the nearly-complete goal. -/
def c3DB : DB :=
  { users := [{ id := "u1", walletAddress := some "w1" }], goals := [c3Goal],
    transactions := [], nextTxnId := 0 }

/-- Concrete execute request delivering 200 base units (0.000002 BTC). -/
def c3Req : ExecReq :=
  { userId := "u1", goalId := some "g3", batchId := some "b3",
    signedTransaction := some "QUJD",
    quoteResponse := some { quoteId := "q3", outAmount := 200 },
    lastValidBlockHeight := some 50 }

/-- Concrete network oracle for the C3 witness: every call succeeds. -/
def c3Net : NetOutcome :=
  { currentBlockHeight := some 10, deserializeOk := true, sendResult := Except.ok "sig3",
    confirmResult := Except.ok () }

/-- Concrete PAUSED goal used by the C10 witness. -/
def wPausedGoal : Goal :=
  { id := "g2", userId := "u1", coin := "BTC", targetAmount := 1, investedAmount := 0,
    status := GoalStatus.PAUSED }

/-- Concrete store holding only the PAUSED goal. -/
def wPausedDB : DB :=
  { users := [{ id := "u1", walletAddress := some "w1" }], goals := [wPausedGoal],
    transactions := [], nextTxnId := 0 }

/-- Concrete execute request against the PAUSED goal. -/
def wPausedExecReq : ExecReq :=
  { userId := "u1", goalId := some "g2", batchId := some "b9",
    signedTransaction := some "QUJD",
    quoteResponse := some { quoteId := "q9", outAmount := 100 },
    lastValidBlockHeight := none }

/-- Concrete network oracle where every call would succeed. -/
def wNet : NetOutcome :=
  { currentBlockHeight := none, deserializeOk := true, sendResult := Except.ok "sig9",
    confirmResult := Except.ok () }

/-- Concrete prepare request against the PAUSED goal. -/
def wPausedPrepReq : PrepReq :=
  { userId := "u1", goalId := some "g2", amountUsd := some 1 }

/-- Concrete prepare environment where every external call would succeed. -/
def wPrepEnv : PrepEnv :=
  { rateLimitOk := true, solBalanceLamports := 10000000000, freshBatchId := "batch9",
    simulatedSignature := "sim1", ataOk := true, quoteOk := Except.ok (),
    swapOk := Except.ok (), network := "MAINNET" }

/-- Concrete PREPARED transfer row used by the C5 witness. -/
def wTransfer : Transfer :=
  { batchId := "b1", sourceAddress := "src", destinationAddress := "dst", lamports := 5000,
    memo := none, state := TransferState.PREPARED, signature := none, refreshCount := 0,
    lastRefreshReason := none, failureReason := none, lastValidBlockHeight := 100,
    recentBlockhash := "bh1" }

/-- Concrete fresh unsigned payload used by the C5 witness. -/
def wUnsigned : Unsigned :=
  { unsignedTransaction := "tx64", recentBlockhash := "bh2", lastValidBlockHeight := 200,
    feeEstimateLamports := some 5000 }

/-- Concrete ACTIVE goal for the C1 non-atomicity exhibit. -/
def c1Goal : Goal :=
  { id := "g1", userId := "u1", coin := "BTC", targetAmount := 2, investedAmount := 0,
    status := GoalStatus.ACTIVE }

/-- Concrete store for C1: one goal, no records yet. -/
def c1DB : DB :=
  { users := [{ id := "u1", walletAddress := some "w1" }], goals := [c1Goal],
    transactions := [], nextTxnId := 0 }

/-- Concrete execute request for C1 delivering 50000000 base units (0.5 BTC). -/
def c1Req : ExecReq :=
  { userId := "u1", goalId := some "g1", batchId := some "b1",
    signedTransaction := some "QUJD",
    quoteResponse := some { quoteId := "q1", outAmount := 50000000 },
    lastValidBlockHeight := some 100 }

/-- Concrete network oracle for C1: submission and confirmation succeed. -/
def c1Net : NetOutcome :=
  { currentBlockHeight := some 10, deserializeOk := true, sendResult := Except.ok "sig1",
    confirmResult := Except.ok () }

/-- The store after only the first confirm write (the record stamp) of the C1
execute run has been persisted — the state left behind when the flow halts
between the record write and the goal increment. -/
def c1Mid : DB :=
  stampSwapRecord c1DB "g1" "b1" none "sig1" (fromSmallestUnits 50000000 8)
    (tokenMint "BTC") "q1" "MAINNET"

/-- Concrete SWAP record already confirmed with signature sig1, for C4. -/
def c4Rec : TxnRecord :=
  { id := 0, goalId := "g1", batchId := "b1", type := TxnType.SWAP, provider := "JUPITER",
    network := "MAINNET", txnHash := some "sig1", amountUsd := none, amountCrypto := 1,
    tokenMint := "mint:BTC", metaState := "SWAP_CONFIRMED", metaQuoteId := some "q1" }

/-- Concrete goal for C4 whose first confirmed swap already incremented it. -/
def c4Goal : Goal :=
  { id := "g1", userId := "u1", coin := "BTC", targetAmount := 100, investedAmount := 1,
    status := GoalStatus.ACTIVE }

/-- Concrete store for C4 holding the already-confirmed SWAP record. -/
def c4DB : DB :=
  { users := [{ id := "u1", walletAddress := some "w1" }], goals := [c4Goal],
    transactions := [c4Rec], nextTxnId := 1 }

/-- Concrete duplicate execute request for the already-confirmed batch. -/
def c4Req : ExecReq :=
  { userId := "u1", goalId := some "g1", batchId := some "b1",
    signedTransaction := some "QUJD",
    quoteResponse := some { quoteId := "q2", outAmount := 100000000 },
    lastValidBlockHeight := none }

/-- Concrete network oracle for C4: the duplicate submission also succeeds. -/
def c4Net : NetOutcome :=
  { currentBlockHeight := none, deserializeOk := true, sendResult := Except.ok "sig2",
    confirmResult := Except.ok () }

/-- Concrete goal for C7 with 5 units already invested. -/
def c7Goal : Goal :=
  { id := "g1", userId := "u1", coin := "BTC", targetAmount := 100, investedAmount := 5,
    status := GoalStatus.ACTIVE }

/-- Concrete store for C7. -/
def c7DB : DB :=
  { users := [{ id := "u1", walletAddress := some "w1" }], goals := [c7Goal],
    transactions := [], nextTxnId := 0 }

/-- Concrete execute request for C7 whose client-supplied quote carries a
negative outAmount. -/
def c7Req : ExecReq :=
  { userId := "u1", goalId := some "g1", batchId := some "b7",
    signedTransaction := some "QUJD",
    quoteResponse := some { quoteId := "q7", outAmount := -100000000 },
    lastValidBlockHeight := none }

/-- Concrete network oracle for C7: the swap confirms. -/
def c7Net : NetOutcome :=
  { currentBlockHeight := none, deserializeOk := true, sendResult := Except.ok "sig7",
    confirmResult := Except.ok () }

/-- Concrete pre-existing SWAP record in a pre-confirm state, for C8. -/
def c8Rec : TxnRecord :=
  { id := 0, goalId := "g1", batchId := "b8", type := TxnType.SWAP, provider := "JUPITER",
    network := "MAINNET", txnHash := none, amountUsd := none, amountCrypto := 0,
    tokenMint := "mint:BTC", metaState := "SWAP_PREPARED", metaQuoteId := some "q8" }

/-- Concrete goal for C8. -/
def c8Goal : Goal :=
  { id := "g1", userId := "u1", coin := "BTC", targetAmount := 100, investedAmount := 0,
    status := GoalStatus.ACTIVE }

/-- Concrete store for C8 holding the pre-confirm SWAP record. -/
def c8DB : DB :=
  { users := [{ id := "u1", walletAddress := some "w1" }], goals := [c8Goal],
    transactions := [c8Rec], nextTxnId := 1 }

/-- Concrete execute request for C8. -/
def c8Req : ExecReq :=
  { userId := "u1", goalId := some "g1", batchId := some "b8",
    signedTransaction := some "QUJD",
    quoteResponse := some { quoteId := "q8", outAmount := 100 },
    lastValidBlockHeight := none }

/-- Concrete network oracle for C8: confirmation fails with an unclassified
error. -/
def c8Net : NetOutcome :=
  { currentBlockHeight := none, deserializeOk := true, sendResult := Except.ok "sig8",
    confirmResult := Except.error "confirmation failed" }

/-- Invariant of the race table for one key: either empty or exactly the
single winning record, which carries the key. -/
def TableInv (batchId : String) (kind : TxnType) (table : List TxnRecord) : Prop :=
  table = [] ∨ ∃ r, table = [r] ∧ KeyOf batchId kind r

/-- Per-request invariant of the guarded (idempotency) machine: a read that
saw a record, or a finished request, pins down the table; the guard never
finishes with an error. -/
def PhaseInv (table : List TxnRecord) : ProcPhase → Prop
  | ProcPhase.start => True
  | ProcPhase.readDone none => True
  | ProcPhase.readDone (some f) => table = [f]
  | ProcPhase.finished (Except.ok t) => table = [t]
  | ProcPhase.finished (Except.error _) => False

/-- Joint invariant of the guarded race. -/
def GuardInv (batchId : String) (kind : TxnType) (s : RaceState) : Prop :=
  TableInv batchId kind s.table ∧ PhaseInv s.table s.procA ∧ PhaseInv s.table s.procB

/-- Concrete record request A races to create (C2). -/
def c2RecA : TxnRecord :=
  { id := 10, goalId := "g1", batchId := "b2", type := TxnType.SWAP, provider := "JUPITER",
    network := "MAINNET", txnHash := some "sigA", amountUsd := none, amountCrypto := 1,
    tokenMint := "mint:BTC", metaState := "SWAP_CONFIRMED", metaQuoteId := some "qa" }

/-- Concrete record request B races to create (C2). -/
def c2RecB : TxnRecord :=
  { id := 11, goalId := "g1", batchId := "b2", type := TxnType.SWAP, provider := "JUPITER",
    network := "MAINNET", txnHash := some "sigB", amountUsd := none, amountCrypto := 1,
    tokenMint := "mint:BTC", metaState := "SWAP_CONFIRMED", metaQuoteId := some "qb" }

/-- The stores reachable from `db` through the confirm-section write sequence
of the execute route: the state before any write, and the states after each
of the three sequential awaits — including the partial states left durable
when a later await fails after an earlier write committed. -/
def confirmPrefixes (db : DB) (goalId batchId : String) (found : Option TxnRecord)
    (signature : String) (outputAmount : ℚ) (mint quoteId network : String) : List DB :=
  [db,
    stampSwapRecord db goalId batchId found signature outputAmount mint quoteId network,
    incrementInvestedAmount (stampSwapRecord db goalId batchId found signature outputAmount
      mint quoteId network) goalId outputAmount,
    autoCompleteGoal (incrementInvestedAmount (stampSwapRecord db goalId batchId found
      signature outputAmount mint quoteId network) goalId outputAmount) goalId]

end Wholecoiner

namespace Wholecoiner

/-- Auxiliary list fact: mapping an update that is keyed by `batchId` and
preserves `batchId` commutes with the `findTransfer` lookup. -/
theorem find_map_transfer (l : List Transfer) (batchId : String) (f : Transfer → Transfer)
    (hpres : ∀ t, (f t).batchId = t.batchId) :
    List.find? (fun t => decide (t.batchId = batchId))
        (l.map (fun t => if t.batchId = batchId then f t else t)) =
      (List.find? (fun t => decide (t.batchId = batchId)) l).map
        (fun t => if t.batchId = batchId then f t else t) := by
  induction l with
  | nil => rfl
  | cons hd tl ih =>
    by_cases h : hd.batchId = batchId
    · have h2 : (f hd).batchId = batchId := by rw [hpres hd]; exact h
      rw [List.map_cons, if_pos h, List.find?_cons_of_pos _ (by simpa using h2),
        List.find?_cons_of_pos _ (by simpa using h)]
      simp [h]
    · rw [List.map_cons, if_neg h, List.find?_cons_of_neg _ (by simpa using h),
        List.find?_cons_of_neg _ (by simpa using h)]
      exact ih

/-- `findTransfer` after a keyed `mapTransfer` update returns the updated row. -/
theorem findTransfer_mapTransfer (db : TransferDB) (batchId : String) (f : Transfer → Transfer)
    (hpres : ∀ t, (f t).batchId = t.batchId) :
    findTransfer (mapTransfer db batchId f) batchId =
      (findTransfer db batchId).map (fun t => if t.batchId = batchId then f t else t) :=
  find_map_transfer db batchId f hpres

/-- Auxiliary list fact: a goal update keyed by goal id that preserves id and
owner commutes with the `findGoal` lookup. -/
theorem find_map_goal (l : List Goal) (gid uid tid : String) (f : Goal → Goal)
    (hid : ∀ g, (f g).id = g.id) (huid : ∀ g, (f g).userId = g.userId) :
    List.find? (fun g => decide (g.id = gid ∧ g.userId = uid))
        (l.map (fun g => if g.id = tid then f g else g)) =
      (List.find? (fun g => decide (g.id = gid ∧ g.userId = uid)) l).map
        (fun g => if g.id = tid then f g else g) := by
  induction l with
  | nil => rfl
  | cons hd tl ih =>
    have hpred : ((if hd.id = tid then f hd else hd).id = gid ∧
        (if hd.id = tid then f hd else hd).userId = uid) ↔ (hd.id = gid ∧ hd.userId = uid) := by
      by_cases h : hd.id = tid <;> simp [h, hid, huid]
    by_cases hp : hd.id = gid ∧ hd.userId = uid
    · rw [List.map_cons, List.find?_cons_of_pos _ (by simpa using hpred.mpr hp),
        List.find?_cons_of_pos _ (by simpa using hp)]
      rfl
    · rw [List.map_cons, List.find?_cons_of_neg _ (by simpa using fun hq => hp (hpred.mp hq)),
        List.find?_cons_of_neg _ (by simpa using hp)]
      exact ih

/-- `findGoal` after a keyed `mapGoal` update returns the updated goal. -/
theorem findGoal_mapGoal (db : DB) (gid uid tid : String) (f : Goal → Goal)
    (hid : ∀ g, (f g).id = g.id) (huid : ∀ g, (f g).userId = g.userId) :
    findGoal (mapGoal db tid f) gid uid =
      (findGoal db gid uid).map (fun g => if g.id = tid then f g else g) :=
  find_map_goal db.goals gid uid tid f hid huid

/-- `stampSwapRecord` writes only to the transactions table. -/
theorem findGoal_stampSwapRecord (db : DB) (goalId batchId : String) (found : Option TxnRecord)
    (signature : String) (outputAmount : ℚ) (mint quoteId network gid uid : String) :
    findGoal (stampSwapRecord db goalId batchId found signature outputAmount mint quoteId network)
        gid uid = findGoal db gid uid := by
  cases found <;> rfl

/-- C6 (code bug): the source computes amount times 10^decimals in IEEE-754
binary64 doubles. At the 8-decimal-representable amount 0.29 the double
literal rounds to 5224175567749775/2^54 and the double product with 1e8
rounds to 7784628223999999/2^28, which lies strictly below 29000000;
Math.floor therefore yields 28999999 and the round trip returns 0.28999999
instead of 0.29. The exact conversion `toSmallestUnits` would give 29000000:
the loss is caused by the double rounding alone, so the conversion is neither
lossless nor a faithful truncation of the exact product. -/
theorem float_conversion_loses_precision :
    RoundsToF64 (29 / 100) jsDouble029 (1 / 2 ^ 54) ∧
    RoundsToF64 (jsDouble029 * 10 ^ 8) jsDouble029e8 (1 / 2 ^ 28) ∧
    ⌊jsDouble029e8⌋ = 28999999 ∧
    fromSmallestUnits 28999999 8 ≠ (29 / 100 : ℚ) ∧
    toSmallestUnits (29 / 100) 8 = 29000000 := by
  refine ⟨⟨⟨5224175567749775, by norm_num, by norm_num [jsDouble029]⟩, ?_⟩,
    ⟨⟨7784628223999999, by norm_num, by norm_num [jsDouble029e8]⟩, ?_⟩, ?_, ?_, ?_⟩
  · rw [abs_sub_lt_iff]
    constructor <;> norm_num [jsDouble029]
  · rw [abs_sub_lt_iff]
    constructor <;> norm_num [jsDouble029, jsDouble029e8]
  · refine Int.floor_eq_iff.mpr ⟨by norm_num [jsDouble029e8], by norm_num [jsDouble029e8]⟩
  · norm_num [fromSmallestUnits]
  · unfold toSmallestUnits
    rw [show ((29 : ℚ) / 100 * (10 : ℚ) ^ 8) = ((29000000 : ℤ) : ℚ) by norm_num]
    exact Int.floor_intCast _

/-- C9: every tolerance on the slippage ladder is at most 200 basis points,
every escalation step lands on the ladder and below the ceiling, and at or
beyond the 200 bps ceiling escalation is the terminal non-retryable
`SLIPPAGE_EXCEEDED` error. -/
theorem slippage_ceiling_respected :
    (∀ b ∈ slippageLadder, b ≤ 200) ∧
    (∀ b c, nextSlippageBps b = some c → c ∈ slippageLadder ∧ c ≤ 200) ∧
    (∀ b, 200 ≤ b → escalateSlippage b = Except.error "SLIPPAGE_EXCEEDED") := by
  refine ⟨?_, ?_, ?_⟩
  · intro b hb
    simp only [slippageLadder, SLIPPAGE_OPTIONS, List.map_cons, List.map_nil,
      List.mem_cons, List.not_mem_nil, or_false] at hb
    rcases hb with h | h | h | h <;> omega
  · intro b c h
    unfold nextSlippageBps slippageLadder SLIPPAGE_OPTIONS at h
    by_cases h1 : b < 50 <;> by_cases h2 : b < 100 <;> by_cases h3 : b < 150 <;>
      by_cases h4 : b < 200 <;>
      simp [List.filter, h1, h2, h3, h4] at h <;>
      (subst h; exact ⟨by decide, by decide⟩)
  · intro b hb
    have h1 : ¬ b < 50 := by omega
    have h2 : ¬ b < 100 := by omega
    have h3 : ¬ b < 150 := by omega
    have h4 : ¬ b < 200 := by omega
    unfold escalateSlippage nextSlippageBps slippageLadder SLIPPAGE_OPTIONS
    simp [List.filter, h1, h2, h3, h4]

/-- Witness for C9: escalating from 50 bps requests 100 bps, which is on the
ladder and below the ceiling. -/
theorem slippage_ceiling_respected_witness :
    100 ∈ slippageLadder ∧ 100 ≤ 200 :=
  slippage_ceiling_respected.2.1 50 100 (by decide)

/-- When the transfer row exists with a positive amount, the refresh path
rebuilds the payload and rewrites the row in place. -/
theorem refreshExpiredTransfer_found (db : TransferDB) (batchId : String) (t : Transfer)
    (fresh : Unsigned) (hfind : findTransfer db batchId = some t) (hpos : 0 < t.lamports) :
    refreshExpiredTransfer db batchId fresh = Except.ok
      (formatTransferResponse t.sourceAddress t.destinationAddress t.lamports t.memo fresh,
        mapTransfer db batchId (fun t2 =>
          { t2 with
            state := TransferState.PREPARED, signature := none,
            refreshCount := t2.refreshCount + 1,
            lastRefreshReason := some "BLOCKHASH_EXPIRED",
            lastValidBlockHeight := fresh.lastValidBlockHeight,
            recentBlockhash := fresh.recentBlockhash })) := by
  simp only [refreshExpiredTransfer, hfind]
  rw [if_neg (not_le.mpr hpos)]

/-- C5: a blockhash-expiry failure on submit for an existing PREPARED transfer
with a positive stored amount yields the retryable 409 `BLOCKHASH_EXPIRED`
response carrying the refreshed unsigned payload, preserves the batch id, and
rewrites the stored row back to PREPARED with `refreshCount` incremented by
exactly one and the signature cleared. -/
theorem blockhash_expiry_refresh_retryable (db : TransferDB) (batchId msg : String)
    (t : Transfer) (fresh : Unsigned)
    (hfind : findTransfer db batchId = some t)
    (hstate : t.state = TransferState.PREPARED)
    (hpos : 0 < t.lamports) :
    (handleSubmitMode db batchId (SubmitOutcome.blockhashExpired msg) fresh).1.status = 409 ∧
    (handleSubmitMode db batchId (SubmitOutcome.blockhashExpired msg) fresh).1.retryable = true ∧
    (handleSubmitMode db batchId (SubmitOutcome.blockhashExpired msg) fresh).1.errCode =
      some "BLOCKHASH_EXPIRED" ∧
    (handleSubmitMode db batchId (SubmitOutcome.blockhashExpired msg) fresh).1.batchId =
      some batchId ∧
    (handleSubmitMode db batchId (SubmitOutcome.blockhashExpired msg) fresh).1.transfer =
      some (formatTransferResponse t.sourceAddress t.destinationAddress t.lamports t.memo
        fresh) ∧
    findTransfer (handleSubmitMode db batchId (SubmitOutcome.blockhashExpired msg) fresh).2
        batchId =
      some { t with
        state := TransferState.PREPARED, signature := none,
        refreshCount := t.refreshCount + 1,
        lastRefreshReason := some "BLOCKHASH_EXPIRED",
        lastValidBlockHeight := fresh.lastValidBlockHeight,
        recentBlockhash := fresh.recentBlockhash } := by
  have hkey : t.batchId = batchId := by
    have h2 : List.find? (fun t2 => decide (t2.batchId = batchId)) db = some t := hfind
    simpa using List.find?_some h2
  simp only [handleSubmitMode, refreshExpiredTransfer_found db batchId t fresh hfind hpos]
  refine ⟨trivial, trivial, trivial, trivial, trivial, ?_⟩
  rw [findTransfer_mapTransfer db batchId
    (fun t2 => { t2 with
      state := TransferState.PREPARED, signature := none,
      refreshCount := t2.refreshCount + 1,
      lastRefreshReason := some "BLOCKHASH_EXPIRED",
      lastValidBlockHeight := fresh.lastValidBlockHeight,
      recentBlockhash := fresh.recentBlockhash }) (fun _ => rfl), hfind]
  simp [hkey]

/-- C10: a goal whose status is not ACTIVE is rejected with a validation
error by both the execute and the prepare route, with the store returned
unchanged, so the invested amount of a PAUSED or COMPLETED goal is never
touched by the invest flow. -/
theorem inactive_goal_rejected :
    (∀ db req net network goalId goal,
      req.goalId = some goalId →
      execMissingFields req = false →
      findGoal db goalId req.userId = some goal →
      goal.status ≠ GoalStatus.ACTIVE →
      executePOST db req net network =
        (execFailure (AppError.validation "Goal must be ACTIVE to execute investment"), db)) ∧
    (∀ db preq env goalId amountUsd goal,
      env.rateLimitOk = true →
      preq.goalId = some goalId → goalId ≠ "" →
      preq.amountUsd = some amountUsd → ¬ amountUsd < MIN_AMOUNT_SOL →
      findGoal db goalId preq.userId = some goal →
      goal.status ≠ GoalStatus.ACTIVE →
      preparePOST db preq env =
        (prepFailure (AppError.validation "Goal must be ACTIVE to invest"), db)) := by
  constructor
  · intro db req net network goalId goal h1 h4 h2 h3
    rcases hb : req.batchId with _ | b
    · exfalso
      rw [execMissingFields, hb] at h4
      simp at h4
    rcases hs : req.signedTransaction with _ | s
    · exfalso
      rw [execMissingFields, hs] at h4
      simp at h4
    rcases hq : req.quoteResponse with _ | q
    · exfalso
      rw [execMissingFields, hq] at h4
      simp at h4
    simp [executePOST, h1, hb, hs, hq, h2, h3, h4]
  · intro db preq env goalId amountUsd goal hrl hg hgne ham hmin hfind hst
    simp [preparePOST, hrl, hg, hgne, ham, hmin, hfind, hst]

/-- C3: a user request to set status COMPLETED is rejected with an
invalid-transition error for every current status; COMPLETED is terminal for
user transitions; immediately after the ledger increment of a successful
execute the goal status is COMPLETED exactly when the invested amount has
reached the target; and the execute flow never touches a COMPLETED goal. -/
theorem goal_state_machine_correct :
    (∀ current next, next = GoalStatus.COMPLETED →
      validateStatusTransition current next =
        TransitionResult.invalidTransition current next) ∧
    (∀ next, validateStatusTransition GoalStatus.COMPLETED next =
      TransitionResult.invalidTransition GoalStatus.COMPLETED next) ∧
    (∀ db req net network goalId batchId st q sig goal,
      req.goalId = some goalId → req.batchId = some batchId →
      req.signedTransaction = some st → req.quoteResponse = some q →
      execMissingFields req = false →
      findGoal db goalId req.userId = some goal →
      goal.status = GoalStatus.ACTIVE →
      submitAndConfirm st req.lastValidBlockHeight net = Except.ok sig →
      ∃ g2, findGoal (executePOST db req net network).2 goalId req.userId = some g2 ∧
        g2.investedAmount = goal.investedAmount +
          fromSmallestUnits q.outAmount (tokenDecimals goal.coin) ∧
        (g2.status = GoalStatus.COMPLETED ↔ g2.targetAmount ≤ g2.investedAmount)) ∧
    (∀ db req net network goalId goal,
      req.goalId = some goalId →
      findGoal db goalId req.userId = some goal →
      goal.status = GoalStatus.COMPLETED →
      (executePOST db req net network).2 = db) := by
  refine ⟨?_, ?_, ?_, ?_⟩
  · intro current next h
    subst h
    cases current <;> decide
  · intro next
    cases next <;> decide
  · intro db req net network goalId batchId st q sig goal h1 hb hs hq h4 hfind hact hsub
    have h2 : List.find? (fun g => decide (g.id = goalId ∧ g.userId = req.userId)) db.goals =
        some goal := hfind
    have hgid : goal.id = goalId ∧ goal.userId = req.userId := by
      simpa using List.find?_some h2
    have hdb : (executePOST db req net network).2 =
        autoCompleteGoal (incrementInvestedAmount
          (stampSwapRecord db goal.id batchId (findTxn db batchId TxnType.SWAP) sig
            (fromSmallestUnits q.outAmount (tokenDecimals goal.coin)) (tokenMint goal.coin)
            q.quoteId network) goal.id
          (fromSmallestUnits q.outAmount (tokenDecimals goal.coin))) goal.id := by
      simp [executePOST, h1, hb, hs, hq, h4, hfind, hact, hsub]
    rw [hdb]
    have hfg1 : findGoal (stampSwapRecord db goal.id batchId (findTxn db batchId TxnType.SWAP)
        sig (fromSmallestUnits q.outAmount (tokenDecimals goal.coin)) (tokenMint goal.coin)
        q.quoteId network) goalId req.userId = some goal := by
      rw [findGoal_stampSwapRecord]
      exact hfind
    have hfg2 : findGoal (incrementInvestedAmount (stampSwapRecord db goal.id batchId
        (findTxn db batchId TxnType.SWAP) sig (fromSmallestUnits q.outAmount
        (tokenDecimals goal.coin)) (tokenMint goal.coin) q.quoteId network) goal.id
        (fromSmallestUnits q.outAmount (tokenDecimals goal.coin))) goalId req.userId =
        some (incGoal goal (fromSmallestUnits q.outAmount (tokenDecimals goal.coin))) := by
      rw [incrementInvestedAmount, findGoal_mapGoal _ goalId req.userId goal.id
        (fun g => incGoal g (fromSmallestUnits q.outAmount (tokenDecimals goal.coin)))
        (fun g => rfl) (fun g => rfl), hfg1]
      simp
    have hfg3 : findGoal (autoCompleteGoal (incrementInvestedAmount (stampSwapRecord db
        goal.id batchId (findTxn db batchId TxnType.SWAP) sig (fromSmallestUnits q.outAmount
        (tokenDecimals goal.coin)) (tokenMint goal.coin) q.quoteId network) goal.id
        (fromSmallestUnits q.outAmount (tokenDecimals goal.coin))) goal.id) goalId
        req.userId =
        some (completeIfReached (incGoal goal
          (fromSmallestUnits q.outAmount (tokenDecimals goal.coin)))) := by
      rw [autoCompleteGoal, findGoal_mapGoal _ goalId req.userId goal.id completeIfReached
        (fun g => by by_cases hc : g.targetAmount ≤ g.investedAmount <;>
          simp [completeIfReached, hc])
        (fun g => by by_cases hc : g.targetAmount ≤ g.investedAmount <;>
          simp [completeIfReached, hc]), hfg2]
      simp [incGoal]
    refine ⟨_, hfg3, ?_, ?_⟩
    · by_cases hc : goal.targetAmount ≤ goal.investedAmount +
          fromSmallestUnits q.outAmount (tokenDecimals goal.coin) <;>
        simp [completeIfReached, incGoal, hc]
    · by_cases hc : goal.targetAmount ≤ goal.investedAmount +
          fromSmallestUnits q.outAmount (tokenDecimals goal.coin) <;>
        simp [completeIfReached, incGoal, hc, hact]
  · intro db req net network goalId goal h1 hfind hcomp
    by_cases h4 : execMissingFields req = true
    · simp [executePOST, h4]
    · rw [Bool.not_eq_true] at h4
      rcases hb : req.batchId with _ | b
      · rw [execMissingFields, hb] at h4
        simp at h4
      rcases hs : req.signedTransaction with _ | s
      · rw [execMissingFields, hs] at h4
        simp at h4
      rcases hq : req.quoteResponse with _ | q
      · rw [execMissingFields, hq] at h4
        simp at h4
      have hne : goal.status ≠ GoalStatus.ACTIVE := by simp [hcomp]
      simp [executePOST, h1, hb, hs, hq, hfind, h4, hne]

/-- Witness for C3: the successful execute flips the goal to COMPLETED
exactly because the invested amount reached the target. -/
theorem goal_state_machine_correct_witness :
    ∃ g2, findGoal (executePOST c3DB c3Req c3Net "MAINNET").2 "g3" c3Req.userId = some g2 ∧
      g2.investedAmount = c3Goal.investedAmount +
        fromSmallestUnits 200 (tokenDecimals c3Goal.coin) ∧
      (g2.status = GoalStatus.COMPLETED ↔ g2.targetAmount ≤ g2.investedAmount) :=
  goal_state_machine_correct.2.2.1 c3DB c3Req c3Net "MAINNET" "g3" "b3" "QUJD"
    { quoteId := "q3", outAmount := 200 } "sig3" c3Goal rfl rfl rfl rfl rfl rfl rfl rfl

/-- Witness for C10 at the concrete PAUSED goal. -/
theorem inactive_goal_rejected_witness :
    executePOST wPausedDB wPausedExecReq wNet "MAINNET" =
      (execFailure (AppError.validation "Goal must be ACTIVE to execute investment"),
        wPausedDB) ∧
    preparePOST wPausedDB wPausedPrepReq wPrepEnv =
      (prepFailure (AppError.validation "Goal must be ACTIVE to invest"), wPausedDB) :=
  ⟨inactive_goal_rejected.1 wPausedDB wPausedExecReq wNet "MAINNET" "g2" wPausedGoal rfl
      (by decide) (by decide) (by decide),
    inactive_goal_rejected.2 wPausedDB wPausedPrepReq wPrepEnv "g2" 1 wPausedGoal (by decide)
      rfl (by decide) rfl (by norm_num [MIN_AMOUNT_SOL]) (by decide) (by decide)⟩

/-- Witness for C5 at a concrete PREPARED transfer hit by an expiry failure. -/
theorem blockhash_expiry_refresh_retryable_witness :
    (handleSubmitMode [wTransfer] "b1" (SubmitOutcome.blockhashExpired "blockhash expired")
        wUnsigned).1.status = 409 ∧
    (handleSubmitMode [wTransfer] "b1" (SubmitOutcome.blockhashExpired "blockhash expired")
        wUnsigned).1.retryable = true ∧
    (handleSubmitMode [wTransfer] "b1" (SubmitOutcome.blockhashExpired "blockhash expired")
        wUnsigned).1.errCode = some "BLOCKHASH_EXPIRED" ∧
    (handleSubmitMode [wTransfer] "b1" (SubmitOutcome.blockhashExpired "blockhash expired")
        wUnsigned).1.batchId = some "b1" ∧
    (handleSubmitMode [wTransfer] "b1" (SubmitOutcome.blockhashExpired "blockhash expired")
        wUnsigned).1.transfer =
      some (formatTransferResponse wTransfer.sourceAddress wTransfer.destinationAddress
        wTransfer.lamports wTransfer.memo wUnsigned) ∧
    findTransfer (handleSubmitMode [wTransfer] "b1"
        (SubmitOutcome.blockhashExpired "blockhash expired") wUnsigned).2 "b1" =
      some { wTransfer with
        state := TransferState.PREPARED, signature := none,
        refreshCount := wTransfer.refreshCount + 1,
        lastRefreshReason := some "BLOCKHASH_EXPIRED",
        lastValidBlockHeight := wUnsigned.lastValidBlockHeight,
        recentBlockhash := wUnsigned.recentBlockhash } :=
  blockhash_expiry_refresh_retryable [wTransfer] "b1" "blockhash expired" wTransfer wUnsigned
    (by decide) (by decide) (by decide)



/-- C1 (code bug): the confirm section of the execute flow persists the SWAP
record stamp and the goal increment as two separate sequential writes with no
surrounding transaction; the store state after the first write alone has a
confirmed SWAP record while the ledger increment is absent, violating the
pairing — the increment-applied state only restores it. -/
theorem swap_confirm_not_atomic :
    (executePOST c1DB c1Req c1Net "MAINNET").2 =
      autoCompleteGoal (incrementInvestedAmount c1Mid "g1"
        (fromSmallestUnits 50000000 8)) "g1" ∧
    confirmedSwapExists c1Mid "b1" = true ∧
    goalInvestedAmount c1Mid "g1" = some 0 ∧
    ¬ LedgerPaired c1DB c1Mid "b1" "g1" (fromSmallestUnits 50000000 8) ∧
    LedgerPaired c1DB (incrementInvestedAmount c1Mid "g1" (fromSmallestUnits 50000000 8))
      "b1" "g1" (fromSmallestUnits 50000000 8) := by
  refine ⟨rfl, rfl, rfl, ?_, ?_⟩
  · intro hpair
    have h := hpair.mp rfl
    have h0 : goalInvestedAmount c1Mid "g1" = some (0 : ℚ) := rfl
    have h1 : (goalInvestedAmount c1DB "g1").map (fun a => a + fromSmallestUnits 50000000 8) =
        some ((0 : ℚ) + fromSmallestUnits 50000000 8) := rfl
    rw [h0, h1] at h
    have h2 : (0 : ℚ) = 0 + fromSmallestUnits 50000000 8 := Option.some.inj h
    norm_num [fromSmallestUnits] at h2
  · exact ⟨fun _ => rfl, fun _ => rfl⟩

/-- C4 (code bug): a second execute request for a batch whose SWAP record is
already CONFIRMED is not a no-op: the flow submits to the network again,
overwrites the stored signature with the new one, and increments the goal
ledger a second time (1 becomes 2 for the same logical operation). -/
theorem confirmed_resubmission_not_noop :
    (findTxn c4DB "b1" TxnType.SWAP).map TxnRecord.metaState = some "SWAP_CONFIRMED" ∧
    (findTxn c4DB "b1" TxnType.SWAP).map TxnRecord.txnHash = some (some "sig1") ∧
    (executePOST c4DB c4Req c4Net "MAINNET").1 =
      execSuccess (fromSmallestUnits 100000000 8) "sig2" ∧
    (findTxn (executePOST c4DB c4Req c4Net "MAINNET").2 "b1" TxnType.SWAP).map
      TxnRecord.txnHash = some (some "sig2") ∧
    goalInvestedAmount c4DB "g1" = some 1 ∧
    goalInvestedAmount (executePOST c4DB c4Req c4Net "MAINNET").2 "g1" = some 2 := by
  have hc : ¬ ((100 : ℚ) ≤ 1 + fromSmallestUnits 100000000 8) := by
    norm_num [fromSmallestUnits]
  refine ⟨rfl, rfl, rfl, rfl, rfl, ?_⟩
  have hdb : (executePOST c4DB c4Req c4Net "MAINNET").2 =
      autoCompleteGoal (incrementInvestedAmount (stampSwapRecord c4DB "g1" "b1" (some c4Rec)
        "sig2" (fromSmallestUnits 100000000 8) (tokenMint "BTC") "q2" "MAINNET") "g1"
        (fromSmallestUnits 100000000 8)) "g1" := rfl
  rw [hdb]
  simp only [autoCompleteGoal, incrementInvestedAmount, stampSwapRecord, mapGoal,
    goalInvestedAmount, completeIfReached, incGoal, c4DB, c4Goal]
  norm_num [fromSmallestUnits, hc]

/-- C7 (code bug): the execute flow increments the goal ledger by the
client-supplied quoteResponse.outAmount without validation; a negative value
makes a successful confirmed execution decrease investedAmount (5 to 4). -/
theorem invested_amount_can_decrease :
    (executePOST c7DB c7Req c7Net "MAINNET").1.success = true ∧
    goalInvestedAmount c7DB "g1" = some 5 ∧
    goalInvestedAmount (executePOST c7DB c7Req c7Net "MAINNET").2 "g1" = some 4 ∧
    (4 : ℚ) < 5 := by
  have hc : ¬ ((100 : ℚ) ≤ 5 + fromSmallestUnits (-100000000) 8) := by
    norm_num [fromSmallestUnits]
  refine ⟨rfl, rfl, ?_, by norm_num⟩
  have hdb : (executePOST c7DB c7Req c7Net "MAINNET").2 =
      autoCompleteGoal (incrementInvestedAmount (stampSwapRecord c7DB "g1" "b7" none
        "sig7" (fromSmallestUnits (-100000000) 8) (tokenMint "BTC") "q7" "MAINNET") "g1"
        (fromSmallestUnits (-100000000) 8)) "g1" := rfl
  rw [hdb]
  simp only [autoCompleteGoal, incrementInvestedAmount, stampSwapRecord, mapGoal,
    goalInvestedAmount, completeIfReached, incGoal, c7DB, c7Goal]
  norm_num [fromSmallestUnits, hc]


/-- C8 counterexample: an unclassified failure (confirmation error) in the
invest execute flow returns a generic 500 with the store unchanged — the
pre-existing SWAP record for the batch is not marked FAILED and no audit
entry is persisted. -/
theorem execute_failure_no_failed_record :
    (executePOST c8DB c8Req c8Net "MAINNET").1 =
      execFailure (AppError.internal "confirmation failed") ∧
    (executePOST c8DB c8Req c8Net "MAINNET").2 = c8DB ∧
    (findTxn c8DB "b8" TxnType.SWAP).map TxnRecord.metaState = some "SWAP_PREPARED" :=
  ⟨rfl, rfl, rfl⟩

/-- C8 amended: in the admin transfer submit flow an unclassified failure
marks the stored transfer FAILED with the raw reason and surfaces a 500. In
the invest execute flow the error handling persists nothing: any failure
raised up to and including submission/confirmation returns with the store
unchanged, and the confirm-section writes — including every partial prefix a
later failing await leaves durable — never mark a record FAILED or persist a
failure reason: every record in every reachable prefix state is either an
untouched pre-existing row or a `SWAP_CONFIRMED` stamp. -/
theorem failure_audit_amended :
    (∀ db batchId msg fresh t, findTransfer db batchId = some t →
      (handleSubmitMode db batchId (SubmitOutcome.failure msg) fresh).1.status = 500 ∧
      (handleSubmitMode db batchId (SubmitOutcome.failure msg) fresh).1.errCode =
        some "INTERNAL_ERROR" ∧
      findTransfer (handleSubmitMode db batchId (SubmitOutcome.failure msg) fresh).2 batchId =
        some { t with state := TransferState.FAILED, failureReason := some msg }) ∧
    (∀ db req net network st e resp db2,
      req.signedTransaction = some st →
      submitAndConfirm st req.lastValidBlockHeight net = Except.error e →
      executePOST db req net network = (resp, db2) → db2 = db) ∧
    (∀ db goalId batchId found signature outputAmount mint quoteId network db2,
      db2 ∈ confirmPrefixes db goalId batchId found signature outputAmount mint quoteId
        network →
      ∀ r ∈ db2.transactions, r ∈ db.transactions ∨ r.metaState = "SWAP_CONFIRMED") := by
  refine ⟨?_, ?_, ?_⟩
  · intro db batchId msg fresh t hfind
    have hkey : t.batchId = batchId := by
      have h2 : List.find? (fun x => decide (x.batchId = batchId)) db = some t := hfind
      simpa using List.find?_some h2
    refine ⟨rfl, rfl, ?_⟩
    simp only [handleSubmitMode, markTransferFailed, hfind]
    rw [findTransfer_mapTransfer db batchId
      (fun t2 => { t2 with state := TransferState.FAILED, failureReason := some msg })
      (fun _ => rfl), hfind]
    simp [hkey]
  · intro db req net network st e resp db2 hst hsub h
    simp only [executePOST] at h
    repeat' split at h
    all_goals
      first
        | (injection h with ha hb
           exact hb.symm)
        | simp_all
  · intro db goalId batchId found signature outputAmount mint quoteId network db2 hmem r hr
    have htx : db2.transactions = db.transactions ∨
        db2.transactions = (stampSwapRecord db goalId batchId found signature outputAmount
          mint quoteId network).transactions := by
      simp only [confirmPrefixes, List.mem_cons, List.not_mem_nil, or_false] at hmem
      rcases hmem with h | h | h | h <;> subst h
      · exact Or.inl rfl
      · exact Or.inr rfl
      · exact Or.inr rfl
      · exact Or.inr rfl
    rcases htx with h | h
    · rw [h] at hr
      exact Or.inl hr
    · rw [h] at hr
      cases found with
      | none =>
        simp only [stampSwapRecord, List.mem_append, List.mem_singleton] at hr
        rcases hr with hr | hr
        · exact Or.inl hr
        · subst hr
          exact Or.inr rfl
      | some t =>
        simp only [stampSwapRecord] at hr
        obtain ⟨x, hx, hxr⟩ := List.mem_map.mp hr
        by_cases hid : x.id = t.id
        · rw [if_pos hid] at hxr
          subst hxr
          exact Or.inr rfl
        · rw [if_neg hid] at hxr
          subst hxr
          exact Or.inl hx

/-- Witness for the C8 amended statement: the admin conjunct at a concrete
stored transfer, the invest pre-write conjunct at the concrete failing C8
run, and the prefix conjunct at the record-stamp state of that run. -/
theorem failure_audit_amended_witness :
    ((handleSubmitMode [wTransfer] "b1" (SubmitOutcome.failure "node rejected")
        wUnsigned).1.status = 500 ∧
     (handleSubmitMode [wTransfer] "b1" (SubmitOutcome.failure "node rejected")
        wUnsigned).1.errCode = some "INTERNAL_ERROR" ∧
     findTransfer (handleSubmitMode [wTransfer] "b1" (SubmitOutcome.failure "node rejected")
        wUnsigned).2 "b1" =
       some { wTransfer with
                state := TransferState.FAILED, failureReason := some "node rejected" }) ∧
    c8DB = c8DB ∧
    (c8Rec ∈ c8DB.transactions ∨ c8Rec.metaState = "SWAP_CONFIRMED") :=
  ⟨failure_audit_amended.1 [wTransfer] "b1" "node rejected" wUnsigned wTransfer rfl,
    failure_audit_amended.2.1 c8DB c8Req c8Net "MAINNET" "QUJD"
      (AppError.internal "confirmation failed")
      (execFailure (AppError.internal "confirmation failed")) c8DB rfl rfl rfl,
    failure_audit_amended.2.2 c8DB "g1" "b8" none "sig8" 1 "mint:BTC" "q8" "MAINNET"
      (stampSwapRecord c8DB "g1" "b8" none "sig8" 1 "mint:BTC" "q8" "MAINNET")
      (List.mem_cons_of_mem _ (List.mem_cons_self _ _)) c8Rec
      (List.mem_append_left _ (List.mem_singleton.mpr rfl))⟩


/-- A singleton table holding a keyed record answers the key lookup. -/
theorem findTxnIn_singleton (batchId : String) (kind : TxnType) (r : TxnRecord)
    (h : KeyOf batchId kind r) : findTxnIn [r] batchId kind = some r := by
  simp [findTxnIn, List.find?, h.1, h.2]

/-- One guarded scheduler step preserves the table invariant, establishes the
invariant of the stepping request, and preserves that of the other request. -/
theorem stepGuard_one (batchId : String) (kind : TxnType) (my : TxnRecord)
    (hk : KeyOf batchId kind my) (table : List TxnRecord) (p q : ProcPhase)
    (ht : TableInv batchId kind table) (hp : PhaseInv table p) (hq : PhaseInv table q) :
    TableInv batchId kind (stepGuard table my p).2 ∧
      PhaseInv (stepGuard table my p).2 (stepGuard table my p).1 ∧
      PhaseInv (stepGuard table my p).2 q := by
  obtain ⟨hk1, hk2⟩ := hk
  cases p with
  | start =>
    refine ⟨ht, ?_, hq⟩
    rcases ht with h | ⟨r, hr, hkr⟩
    · subst h
      simp [stepGuard, findTxnIn, PhaseInv]
    · subst hr
      have hfind : findTxnIn [r] my.batchId my.type = some r := by
        rw [hk1, hk2]
        exact findTxnIn_singleton batchId kind r hkr
      simp [stepGuard, hfind, PhaseInv]
  | readDone found =>
    cases found with
    | some f => exact ⟨ht, hp, hq⟩
    | none =>
      rcases ht with h | ⟨r, hr, hkr⟩
      · subst h
        have hstep : stepGuard [] my (ProcPhase.readDone none) =
            (ProcPhase.finished (Except.ok my), [my]) := by
          simp [stepGuard, insertUnique, findTxnIn]
        rw [hstep]
        refine ⟨Or.inr ⟨my, rfl, hk1, hk2⟩, rfl, ?_⟩
        cases q with
        | start => trivial
        | readDone found2 =>
          cases found2 with
          | none => trivial
          | some f => exact absurd hq (by simp [PhaseInv])
        | finished res =>
          cases res with
          | ok t => exact absurd hq (by simp [PhaseInv])
          | error e => exact hq.elim
      · subst hr
        have hfind : findTxnIn [r] my.batchId my.type = some r := by
          rw [hk1, hk2]
          exact findTxnIn_singleton batchId kind r hkr
        have hstep : stepGuard [r] my (ProcPhase.readDone none) =
            (ProcPhase.finished (Except.ok r), [r]) := by
          simp [stepGuard, insertUnique, hfind]
        rw [hstep]
        exact ⟨Or.inr ⟨r, rfl, hkr⟩, rfl, hq⟩
  | finished res => exact ⟨ht, hp, hq⟩

/-- One scheduler step of either request preserves the joint guard invariant. -/
theorem raceStep_guard (batchId : String) (kind : TxnType) (recA recB : TxnRecord)
    (hA : KeyOf batchId kind recA) (hB : KeyOf batchId kind recB) (who : Bool)
    (s : RaceState) (h : GuardInv batchId kind s) :
    GuardInv batchId kind (raceStep stepGuard recA recB who s) := by
  obtain ⟨ht, hpA, hpB⟩ := h
  cases who with
  | false =>
    have h3 := stepGuard_one batchId kind recB hB s.table s.procB s.procA ht hpB hpA
    exact ⟨h3.1, h3.2.2, h3.2.1⟩
  | true =>
    have h3 := stepGuard_one batchId kind recA hA s.table s.procA s.procB ht hpA hpB
    exact ⟨h3.1, h3.2.1, h3.2.2⟩

/-- Any schedule preserves the joint guard invariant. -/
theorem raceRun_guard (batchId : String) (kind : TxnType) (recA recB : TxnRecord)
    (hA : KeyOf batchId kind recA) (hB : KeyOf batchId kind recB) (sched : List Bool) :
    ∀ s, GuardInv batchId kind s →
      GuardInv batchId kind (raceRun stepGuard recA recB sched s) := by
  induction sched with
  | nil => exact fun s h => h
  | cons w ws ih =>
    exact fun s h => ih _ (raceStep_guard batchId kind recA recB hA hB w s h)

/-- One unguarded (execute) scheduler step preserves the table invariant. -/
theorem stepExecuteCreate_table (batchId : String) (kind : TxnType) (my : TxnRecord)
    (hk : KeyOf batchId kind my) (table : List TxnRecord) (p : ProcPhase)
    (ht : TableInv batchId kind table) :
    TableInv batchId kind (stepExecuteCreate table my p).2 := by
  obtain ⟨hk1, hk2⟩ := hk
  cases p with
  | start => exact ht
  | finished res => exact ht
  | readDone found =>
    cases found with
    | some t =>
      rcases ht with h | ⟨r, hr, hkr⟩
      · subst h
        exact Or.inl rfl
      · subst hr
        right
        by_cases hid : r.id = t.id
        · exact ⟨stampLike r my, by simp [stepExecuteCreate, hid], hkr⟩
        · exact ⟨r, by simp [stepExecuteCreate, hid], hkr⟩
    | none =>
      rcases ht with h | ⟨r, hr, hkr⟩
      · subst h
        exact Or.inr ⟨my, by simp [stepExecuteCreate, insertUnique, findTxnIn], hk1, hk2⟩
      · subst hr
        have hfind : findTxnIn [r] my.batchId my.type = some r := by
          rw [hk1, hk2]
          exact findTxnIn_singleton batchId kind r hkr
        have hstep : stepExecuteCreate [r] my (ProcPhase.readDone none) =
            (ProcPhase.finished (Except.error "INTERNAL_ERROR"), [r]) := by
          simp [stepExecuteCreate, insertUnique, hfind]
        rw [hstep]
        exact Or.inr ⟨r, rfl, hkr⟩

/-- Any schedule of the unguarded machine preserves the table invariant. -/
theorem raceRun_exec_table (batchId : String) (kind : TxnType) (recA recB : TxnRecord)
    (hA : KeyOf batchId kind recA) (hB : KeyOf batchId kind recB) (sched : List Bool) :
    ∀ s, TableInv batchId kind s.table →
      TableInv batchId kind (raceRun stepExecuteCreate recA recB sched s).table := by
  induction sched with
  | nil => exact fun s h => h
  | cons w ws ih =>
    intro s h
    refine ih _ ?_
    cases w with
    | false => exact stepExecuteCreate_table batchId kind recB hB s.table s.procB h
    | true => exact stepExecuteCreate_table batchId kind recA hA s.table s.procA h

/-- A table satisfying the invariant holds at most one record for the key. -/
theorem tableInv_keyRecords_le_one (batchId : String) (kind : TxnType)
    (table : List TxnRecord) (ht : TableInv batchId kind table) :
    (keyRecords table batchId kind).length ≤ 1 := by
  rcases ht with h | ⟨r, hr, _⟩
  · simp [keyRecords, h]
  · rw [hr]
    simpa using List.length_filter_le _ [r]

/-- C2 amended: under every interleaving of two concurrent requests for the
same (batchId, kind), at most one record is persisted. Through the
Idempotency Guard (the prepare path) both finished requests additionally
return exactly the unique persisted record; through the unguarded
find-then-create of the execute route only the at-most-one bound holds — the
losing request ends in an error instead of reading the winner back. -/
theorem idempotency_race_amended :
    (∀ batchId kind recA recB sched, KeyOf batchId kind recA → KeyOf batchId kind recB →
      (keyRecords (raceRun stepGuard recA recB sched raceInit).table batchId kind).length
        ≤ 1 ∧
      (∀ ra rb,
        (raceRun stepGuard recA recB sched raceInit).procA = ProcPhase.finished ra →
        (raceRun stepGuard recA recB sched raceInit).procB = ProcPhase.finished rb →
        ∃ r, (raceRun stepGuard recA recB sched raceInit).table = [r] ∧
          KeyOf batchId kind r ∧ ra = Except.ok r ∧ rb = Except.ok r)) ∧
    (∀ batchId kind recA recB sched, KeyOf batchId kind recA → KeyOf batchId kind recB →
      (keyRecords (raceRun stepExecuteCreate recA recB sched raceInit).table batchId
        kind).length ≤ 1) := by
  constructor
  · intro batchId kind recA recB sched hA hB
    have hinv : GuardInv batchId kind (raceRun stepGuard recA recB sched raceInit) :=
      raceRun_guard batchId kind recA recB hA hB sched raceInit
        ⟨Or.inl rfl, trivial, trivial⟩
    obtain ⟨ht, hpA, hpB⟩ := hinv
    refine ⟨tableInv_keyRecords_le_one batchId kind _ ht, ?_⟩
    intro ra rb hfa hfb
    rw [hfa] at hpA
    rw [hfb] at hpB
    cases ra with
    | error e => exact hpA.elim
    | ok ta =>
      cases rb with
      | error e => exact hpB.elim
      | ok tb =>
        have h1 : (raceRun stepGuard recA recB sched raceInit).table = [ta] := hpA
        have h2 : (raceRun stepGuard recA recB sched raceInit).table = [tb] := hpB
        have heq : ta = tb := by
          have := h1.symm.trans h2
          exact (List.cons.injEq ta [] tb []).mp this |>.1
        rcases ht with h | ⟨r, hr, hkr⟩
        · rw [h1] at h
          exact absurd h (by simp)
        · have hra : r = ta := by
            have := hr.symm.trans h1
            exact (List.cons.injEq r [] ta []).mp this |>.1
          exact ⟨ta, h1, hra ▸ hkr, rfl, by rw [heq]⟩
  · intro batchId kind recA recB sched hA hB
    exact tableInv_keyRecords_le_one batchId kind _
      (raceRun_exec_table batchId kind recA recB hA hB sched raceInit (Or.inl rfl))

/-- C2 counterexample: in the unguarded execute machine, under the schedule
where both requests read before either writes, the losing request finishes
with the generic internal error — it neither reads back the winner record
nor creates a second one. -/
theorem execute_race_loser_errors :
    (raceRun stepExecuteCreate c2RecA c2RecB [true, false, true, false] raceInit).procB =
      ProcPhase.finished (Except.error "INTERNAL_ERROR") ∧
    (raceRun stepExecuteCreate c2RecA c2RecB [true, false, true, false] raceInit).table =
      [c2RecA] := ⟨rfl, rfl⟩

/-- Witness for the C2 amended statement at the concrete records and the
both-read-first schedule. -/
theorem idempotency_race_amended_witness :
    ((keyRecords (raceRun stepGuard c2RecA c2RecB [true, false, true, false] raceInit).table
        "b2" TxnType.SWAP).length ≤ 1 ∧
      (∀ ra rb,
        (raceRun stepGuard c2RecA c2RecB [true, false, true, false] raceInit).procA =
          ProcPhase.finished ra →
        (raceRun stepGuard c2RecA c2RecB [true, false, true, false] raceInit).procB =
          ProcPhase.finished rb →
        ∃ r, (raceRun stepGuard c2RecA c2RecB [true, false, true, false] raceInit).table =
            [r] ∧ KeyOf "b2" TxnType.SWAP r ∧ ra = Except.ok r ∧ rb = Except.ok r)) ∧
    (keyRecords (raceRun stepExecuteCreate c2RecA c2RecB [true, false, true, false]
        raceInit).table "b2" TxnType.SWAP).length ≤ 1 :=
  ⟨idempotency_race_amended.1 "b2" TxnType.SWAP c2RecA c2RecB [true, false, true, false]
      ⟨rfl, rfl⟩ ⟨rfl, rfl⟩,
    idempotency_race_amended.2 "b2" TxnType.SWAP c2RecA c2RecB [true, false, true, false]
      ⟨rfl, rfl⟩ ⟨rfl, rfl⟩⟩

end Wholecoiner
